import Mathlib

/-!
# shabubot: a shallow embedding of `bot.js`

The bot is event-driven glue around three external collaborators: the chat
platform client, the relational order store and the QR/image renderer.  The
embedding keeps the control flow of each handler of `bot.js` (including every
`try`/`catch`) and makes the collaborators explicit:

* every awaited collaborator call is recorded in a trace together with its
  outcome (`true` = the promise resolved, `false` = it rejected); a rejected
  call has no effect on the platform;
* the outcomes are an input of the model, so theorems can quantify over them;
* JavaScript strings are Lean strings (well-formed Unicode text).
-/

namespace Shabubot

/-! ## Constants -/

/-- `const SF_ROLE_ID` (bot.js:23). -/
def SF_ROLE_ID : String := "1303016685699203122"

/-- `const ESIM_CHANNEL_ID` (bot.js:24). -/
def ESIM_CHANNEL_ID : String := "1324351256709431336"

/-! ## QR payload (`generateQRCode`, bot.js:298-313) -/

/-- The template literal of bot.js:299: the text handed to the QR encoder.
In a template literal only `${` opens a substitution, so the other dollar
signs are literal characters. -/
def qrData (activationCode smDpAddress : String) : String :=
  "1$esim$" ++ smDpAddress ++ "$" ++ activationCode

/-- The options object passed to `QRCode.toCanvas` (bot.js:303-310). -/
structure QROptions where
  errorCorrectionLevel : String
  margin : Nat
  dark : String
  light : String
  deriving DecidableEq, Repr

/-- The options literal of bot.js:303-310. -/
def qrOptions : QROptions :=
  { errorCorrectionLevel := "H", margin := 4, dark := "#000000", light := "#ffffff" }

/-- The result of `canvas.toBuffer('image/png')`: the raster is left
uninterpreted, it is identified by the canvas size and the encoded text. -/
structure Buffer where
  mime : String
  width : Nat
  height : Nat
  encoded : String
  deriving DecidableEq, Repr

/-- An `AttachmentBuilder` (bot.js:236). -/
structure Attachment where
  data : Buffer
  name : String
  deriving DecidableEq, Repr

/-- `String.prototype.split` with a one-character separator: the pieces
between the occurrences of the separator, in order (an empty string gives one
empty piece). -/
def jsSplit (s : String) (separator : Char) : List String :=
  (s.data.splitOn separator).map String.mk

/-! ## Interactions (`interactionCreate`, bot.js:177-265) -/

/-- A `TextInputBuilder` of the modal. -/
structure TextInput where
  customId : String
  label : String
  style : String
  placeholder : String
  required : Bool
  deriving DecidableEq, Repr

/-- A `ModalBuilder`: each component is an action row holding one input. -/
structure Modal where
  customId : String
  title : String
  components : List TextInput
  deriving DecidableEq, Repr

/-- The modal built at bot.js:198-221. -/
def esimModal : Modal :=
  { customId := "esim_details"
    title := "Enter eSIM Details"
    components :=
      [ { customId := "activationCode", label := "Enter the eSIM activation code",
          style := "Short", placeholder := "Enter the activation code here",
          required := true },
        { customId := "smdpAddress", label := "Enter the SM-DP+ address",
          style := "Short", placeholder := "Enter the SM-DP+ address here",
          required := true } ] }

/-- A collaborator call awaited by the interaction handler. `flags = some 64`
marks a reply visible to the invoker only. -/
inductive Call where
  | reply (content : String) (flags : Option Nat) (files : List Attachment)
  | editReply (content : String)
  | showModal (modal : Modal)
  | toCanvas (width height : Nat) (text : String) (options : QROptions)
  deriving DecidableEq, Repr

/-- Whether the call is `interaction.reply`. -/
def Call.isReply : Call → Bool
  | .reply _ _ _ => true
  | _ => false

/-- What an interaction is, as far as the handler inspects it. A submission
of the modal carries the values of its two required inputs. -/
inductive InteractionKind where
  | chatInputCommand (commandName : String)
  | modalSubmit (customId : String) (activationCode smdpAddress : String)
  | other
  deriving DecidableEq, Repr

/-- The value of `interaction.member` when there is one: a `GuildMember` of a
cached guild, whose `roles.cache` holds its role ids, or the raw member object
of the API (guild not cached), whose `roles` is a plain array of role ids, so
that `roles.cache` is undefined. -/
inductive InteractionMember where
  | guildMember (roles : List String)
  | apiMember (roles : List String)
  deriving DecidableEq, Repr

/-- An incoming interaction. `member` is `interaction.member`, `none` when it
is null. -/
structure Interaction where
  kind : InteractionKind
  channelId : String
  member : Option InteractionMember
  userId : String
  deriving DecidableEq, Repr

/-- A JavaScript `Map` from strings to strings, in insertion order. -/
abbrev JsMap := List (String × String)

/-- `Map.prototype.set`: replaces the value of an existing key in place,
appends a new key at the end. -/
def JsMap.set : JsMap → String → String → JsMap
  | [], k, v => [(k, v)]
  | (k', v') :: rest, k, v =>
    if k' = k then (k, v) :: rest else (k', v') :: JsMap.set rest k v

/-- `Map.prototype.get`. -/
def JsMap.get : JsMap → String → Option String
  | [], _ => none
  | (k', v') :: rest, k => if k' = k then some v' else JsMap.get rest k

/-- The state one run of the interaction handler reads and writes. -/
structure HState where
  /-- Every collaborator call issued so far, with its outcome. -/
  calls : List (Call × Bool)
  /-- Field `interaction.replied`. -/
  replied : Bool
  /-- Field `interaction.deferred`. -/
  deferred : Bool
  /-- Field `client.activationCodes`, `none` while it is undefined. -/
  activationCodes : Option JsMap
  /-- Lines written with `console.error`. -/
  errors : List String
  deriving DecidableEq, Repr

/-- How a block of statements ended. -/
inductive Completion where
  | normal
  | threw
  deriving DecidableEq, Repr

/-- Awaits one collaborator call. Its outcome is `outcome n` where `n` is the
number of calls issued before it; a resolved `reply` sets
`interaction.replied`. -/
def perform (outcome : Nat → Bool) (c : Call) (s : HState) : Bool × HState :=
  let ok := outcome s.calls.length
  (ok, { s with calls := s.calls ++ [(c, ok)], replied := s.replied || (c.isReply && ok) })

/-- An awaited call as a statement: a rejection throws. -/
def await (r : Bool × HState) : Completion × HState :=
  (if r.1 then Completion.normal else Completion.threw, r.2)

/-- `console.error`. -/
def logError (line : String) (s : HState) : HState :=
  { s with errors := s.errors ++ [line] }

/-- `generateQRCode` (bot.js:298-313): builds the text, draws it on a
300x300 canvas with `QRCode.toCanvas` and returns the PNG buffer; `none` when
the encoder rejects. -/
def generateQRCode (outcome : Nat → Bool) (activationCode smDpAddress : String)
    (s : HState) : Option Buffer × HState :=
  let text := qrData activationCode smDpAddress
  match perform outcome (.toCanvas 300 300 text qrOptions) s with
  | (true, s1) => (some { mime := "image/png", width := 300, height := 300, encoded := text }, s1)
  | (false, s1) => (none, s1)

/-- The reply of bot.js:183-186. -/
def wrongChannelReply : Call :=
  .reply "This command can only be used in the designated eSIM generator channel." (some 64) []

/-- The reply of bot.js:191-194. -/
def noPermissionReply : Call :=
  .reply "You do not have permission to use this command." (some 64) []

/-- The reply of the inner `catch` (bot.js:244). -/
def qrFailedReply : Call :=
  .reply "An error occurred while generating the QR code. Please try again." none []

/-- The text used by the outer `catch` (bot.js:253, 258). -/
def genericErrorText : String :=
  "An error occurred while processing your request. Please try again."

/-- `interaction.member?.roles.cache.has(SF_ROLE_ID)` (bot.js:190). Only
`member` is guarded by the optional chain: without a member the value is
`undefined` (falsy); for a raw API member `roles.cache` is undefined and
calling `.has` on it throws a `TypeError`. -/
def hasSfRole (interaction : Interaction) : Except String Bool :=
  match interaction.member with
  | none => .ok false
  | some (.guildMember roles) => .ok (roles.contains SF_ROLE_ID)
  | some (.apiMember _) => .error "TypeError"

/-- The inner `catch` block of the modal branch (bot.js:242-245). -/
def qrCatch (outcome : Nat → Bool) (s : HState) : Completion × HState :=
  await (perform outcome qrFailedReply (logError "Error generating QR code:" s))

/-- The body of the outer `try` (bot.js:179-247). -/
def interactionTry (outcome : Nat → Bool) (interaction : Interaction) (s : HState) :
    Completion × HState :=
  match interaction.kind with
  | .chatInputCommand commandName =>
    if commandName = "esim" then
      if interaction.channelId ≠ ESIM_CHANNEL_ID then
        await (perform outcome wrongChannelReply s)
      else
        match hasSfRole interaction with
        | .error _ => (.threw, s)
        | .ok false => await (perform outcome noPermissionReply s)
        | .ok true => await (perform outcome (.showModal esimModal) s)
    else (.normal, s)
  | .modalSubmit customId activationCode smdpAddress =>
    if customId = "esim_details" then
      let codes := JsMap.set (s.activationCodes.getD []) interaction.userId activationCode
      let s1 := { s with activationCodes := some codes }
      match generateQRCode outcome activationCode smdpAddress s1 with
      | (some qrCodeBuffer, s2) =>
        let attachment : Attachment := { data := qrCodeBuffer, name := "esim_qr_code.png" }
        match perform outcome (.reply "Here is your eSIM QR code:" none [attachment]) s2 with
        | (true, s3) => (.normal, s3)
        | (false, s3) => qrCatch outcome s3
      | (none, s2) => qrCatch outcome s2
    else (.normal, s)
  | .other => (.normal, s)

/-- The outer `catch` block (bot.js:248-264). -/
def interactionCatch (outcome : Nat → Bool) (s : HState) : HState :=
  let s1 := logError "Error in interaction handler:" s
  let r :=
    if !s1.replied && !s1.deferred then
      perform outcome (.reply genericErrorText (some 64) []) s1
    else
      perform outcome (.editReply genericErrorText) s1
  match r with
  | (true, s2) => s2
  | (false, s2) => logError "Error sending error message:" s2

/-- The `interactionCreate` handler (bot.js:177-265). -/
def interactionCreate (outcome : Nat → Bool) (interaction : Interaction) (s : HState) : HState :=
  match interactionTry outcome interaction s with
  | (.normal, s1) => s1
  | (.threw, s1) => interactionCatch outcome s1

/-- The state in which a fresh interaction arrives. -/
def freshState (activationCodes : Option JsMap) : HState :=
  { calls := [], replied := false, deferred := false,
    activationCodes := activationCodes, errors := [] }

/-- Whether a recorded call delivered a response of its own to the user: a
resolved `reply` or `showModal` (an `editReply` changes an existing one). -/
def isResponse : Call × Bool → Bool
  | (.reply _ _ _, true) => true
  | (.showModal _, true) => true
  | _ => false

/-- The responses delivered during a run. -/
def responses (s : HState) : List Call :=
  (s.calls.filter isResponse).map Prod.fst

/-- The texts handed to the QR encoder during a run. -/
def encoderTexts (s : HState) : List String :=
  s.calls.filterMap fun c =>
    match c.1 with
    | .toCanvas _ _ text _ => some text
    | _ => none

/-- Whether a call goes to the chat platform (`reply`, `editReply`,
`showModal`); the encoder call does not. -/
def isPlatformCall : Call → Bool
  | .toCanvas _ _ _ _ => false
  | _ => true

/-- The outcome assignment in which every collaborator call resolves. -/
def allOk : Nat → Bool := fun _ => true

/-- The outcome assignment in which every collaborator call rejects. -/
def allFail : Nat → Bool := fun _ => false

/-! ## Plain messages (`messageCreate`, bot.js:268-296) -/

/-- A channel of the guild cache, as far as the message handler reads it. -/
structure ChannelRef where
  id : String
  name : String
  deriving DecidableEq, Repr

/-- An incoming message. `channelName` is `message.channel.name` (undefined
for a channel without a name); `author` is the user id. -/
structure Message where
  authorBot : Bool
  author : String
  channelName : Option String
  guildChannels : List ChannelRef
  deriving DecidableEq, Repr

/-- A platform call awaited by the message handler. -/
inductive MsgCall where
  | delete
  | send (content : String) (flags : Option Nat)
  deriving DecidableEq, Repr

/-- The state of one run of the message handler. -/
structure MState where
  calls : List (MsgCall × Bool)
  errors : List String
  deriving DecidableEq, Repr

/-- Awaits one platform call of the message handler; `true` when it resolved. -/
def mperform (outcome : Nat → Bool) (c : MsgCall) (s : MState) : Bool × MState :=
  let ok := outcome s.calls.length
  (ok, { s with calls := s.calls ++ [(c, ok)] })

/-- A user placed in a template literal renders as a mention. -/
def userMention (id : String) : String := "<@" ++ id ++ ">"

/-- The text of bot.js:275. -/
def verifyInstruction (message : Message) : String :=
  "Welcome to SF " ++ userMention message.author
    ++ ", please use the /verify command with your unique code to verify your account."

/-- The text of bot.js:288; the id of the first channel named `verify`, or
the text `undefined` when there is none. -/
def welcomeInstruction (message : Message) : String :=
  let id := match message.guildChannels.find? (fun ch => ch.name = "verify") with
    | some ch => ch.id
    | none => "undefined"
  userMention message.author ++ ", please use the /verify command in <#" ++ id
    ++ "> with your unique code to verify your account."

/-- The `try`/`catch` shared in shape by both branches: delete the message,
then send the instruction; the first rejection is logged and ends the block. -/
def deleteThenSend (outcome : Nat → Bool) (content errorLine : String) (s : MState) : MState :=
  match mperform outcome .delete s with
  | (false, s1) => { s1 with errors := s1.errors ++ [errorLine] }
  | (true, s1) =>
    match mperform outcome (.send content (some 64)) s1 with
    | (false, s2) => { s2 with errors := s2.errors ++ [errorLine] }
    | (true, s2) => s2

/-- The `messageCreate` handler (bot.js:268-296). -/
def messageCreate (outcome : Nat → Bool) (message : Message) (s : MState) : MState :=
  if message.authorBot then s
  else if message.channelName = some "verify" then
    deleteThenSend outcome (verifyInstruction message)
      "Error handling verify channel message:" s
  else if message.channelName = some "welcome" then
    deleteThenSend outcome (welcomeInstruction message)
      "Error handling welcome channel message:" s
  else s

/-- The state in which a message arrives. -/
def freshMState : MState := { calls := [], errors := [] }

/-- The number of resolved `delete` calls of a run. -/
def deletes (s : MState) : Nat :=
  (s.calls.filter fun c => c = (MsgCall.delete, true)).length

/-- The messages sent (resolved `send` calls) during a run. -/
def sends (s : MState) : List String :=
  s.calls.filterMap fun c =>
    match c with
    | (.send content _, true) => some content
    | _ => none

/-! ## Ticket reconciliation (`checkPendingOrdersAndCreateTicket`, bot.js:59-144) -/

/-- A row of the `orders` table; `id` and `product_id` are the numeric keys
of the schema. -/
structure Order where
  id : Nat
  customer_email : String
  product_id : Nat
  status : String
  created_at : String
  deriving DecidableEq, Repr

/-- A row of the `products` table. -/
structure Product where
  id : Nat
  name : String
  deriving DecidableEq, Repr

/-- The order store: the two tables, rows in the order the store returns them. -/
structure Store where
  orders : List Order
  products : List Product
  deriving DecidableEq, Repr

/-- The rows of `SELECT * FROM orders WHERE customer_email = ? AND status = ?`
with the parameters `[customerEmail, 'pending']` (bot.js:61-64). -/
def selectPendingOrders (store : Store) (customerEmail : String) : List Order :=
  store.orders.filter fun o => o.customer_email = customerEmail ∧ o.status = "pending"

/-- The rows of `SELECT * FROM products WHERE id = ?` (bot.js:75-78). -/
def selectProducts (store : Store) (productId : Nat) : List Product :=
  store.products.filter fun p => p.id = productId

/-- The permission flags named by the handler. -/
inductive Permission where
  | ViewChannel
  | SendMessages
  | ReadMessageHistory
  deriving DecidableEq, Repr

/-- One entry of `permissionOverwrites`. -/
structure Overwrite where
  id : String
  allow : List Permission
  deny : List Permission
  deriving DecidableEq, Repr

/-- A guild channel. -/
structure Channel where
  name : String
  type : String
  permissionOverwrites : List Overwrite
  deriving DecidableEq, Repr

/-- A `ButtonBuilder`. -/
structure Button where
  customId : String
  label : String
  style : String
  deriving DecidableEq, Repr

/-- The payload of `ticketChannel.send`: the text and one action row. -/
structure TicketMessage where
  content : String
  components : List Button
  deriving DecidableEq, Repr

/-- The guild member the ticket is for. -/
structure Member where
  id : String
  userTag : String
  deriving DecidableEq, Repr

/-- The guild as the handler sees and changes it. `channels` is
`member.guild.channels.cache`; a channel created through the platform is added
at its end. `sent` lists the messages sent, each with the name of the channel
it went to. -/
structure Guild where
  id : String
  channels : List Channel
  sent : List (String × TicketMessage)
  errors : List String
  logs : List String
  deriving DecidableEq, Repr

/-- The outcome of each collaborator call of one reconciliation (`true` = the
call resolved). Each call is issued at most once per reconciliation. -/
structure Outcomes where
  ordersQuery : Bool
  productsQuery : Bool
  channelCreate : Bool
  channelSend : Bool
  deriving DecidableEq, Repr

/-- What the handler reads from its process: `client.user.id` and the
rendering of `new Date(created_at).toLocaleString()`. -/
structure Client where
  userId : String
  localeString : String → String

/-- The channel name of bot.js:68. -/
def ticketChannelName (order : Order) : String :=
  "ticket-" ++ toString order.id

/-- The `permissionOverwrites` literal of bot.js:90-111. -/
def ticketOverwrites (client : Client) (guildId : String) (member : Member) : List Overwrite :=
  [ { id := guildId, allow := [], deny := [.ViewChannel] },
    { id := member.id, allow := [.ViewChannel, .SendMessages, .ReadMessageHistory], deny := [] },
    { id := client.userId, allow := [.ViewChannel, .SendMessages, .ReadMessageHistory],
      deny := [] } ]

/-- The argument of `member.guild.channels.create` (bot.js:87-112). -/
def ticketChannel (client : Client) (guildId : String) (member : Member) (order : Order) :
    Channel :=
  { name := ticketChannelName order, type := "GuildText",
    permissionOverwrites := ticketOverwrites client guildId member }

/-- The action row of bot.js:114-124. -/
def ticketButtons : List Button :=
  [ { customId := "ticket_completed", label := "Completed", style := "Success" },
    { customId := "ticket_failed", label := "Failed", style := "Danger" } ]

/-- The message of bot.js:126-136. -/
def ticketMessage (client : Client) (member : Member) (order : Order) (product : Product) :
    TicketMessage :=
  { content :=
      "Welcome " ++ userMention member.id ++ "! This is your ticket for Order #"
        ++ toString order.id ++ ".\n\n"
        ++ "Order Details:\n"
        ++ "- Order ID: " ++ toString order.id ++ "\n"
        ++ "- Product ID: " ++ toString order.product_id ++ "\n"
        ++ "- Product Name: " ++ product.name ++ "\n"
        ++ "- Status: " ++ order.status ++ "\n"
        ++ "- Created: " ++ client.localeString order.created_at ++ "\n\n"
        ++ "A staff member will assist you shortly."
    components := ticketButtons }

/-- The body of the `try` of `checkPendingOrdersAndCreateTicket`
(bot.js:61-140). -/
def checkTry (client : Client) (store : Store) (out : Outcomes) (member : Member)
    (customerEmail : String) (g : Guild) : Completion × Guild :=
  if !out.ordersQuery then (.threw, g)
  else
    match selectPendingOrders store customerEmail with
    | [] => (.normal, g)
    | order :: _ =>
      let name := ticketChannelName order
      match g.channels.find? (fun channel => channel.name = name) with
      | some _ => (.normal, g)
      | none =>
        if !out.productsQuery then (.threw, g)
        else
          match selectProducts store order.product_id with
          | [] =>
            (.normal, { g with errors := g.errors ++
              ["Product with ID " ++ toString order.product_id ++ " not found."] })
          | product :: _ =>
            if !out.channelCreate then (.threw, g)
            else
              let g1 := { g with channels := g.channels ++ [ticketChannel client g.id member order] }
              if !out.channelSend then (.threw, g1)
              else
                let g2 := { g1 with sent := g1.sent ++ [(name, ticketMessage client member order product)] }
                (.normal, { g2 with logs := g2.logs ++
                  ["Created ticket channel " ++ name ++ " for user " ++ member.userTag] })

/-- The function `checkPendingOrdersAndCreateTicket` (bot.js:59-144): the
`try` body, with anything it throws caught and logged. The first component is
how the call ends for its caller. -/
def checkPendingOrdersAndCreateTicket (client : Client) (store : Store) (out : Outcomes)
    (member : Member) (customerEmail : String) (g : Guild) : Completion × Guild :=
  match checkTry client store out member customerEmail g with
  | (.normal, g1) => (.normal, g1)
  | (.threw, g1) => (.normal, { g1 with errors := g1.errors ++ ["Error checking pending orders:"] })

/-- The number of channels of the guild with a given name. -/
def channelCount (g : Guild) (name : String) : Nat :=
  (g.channels.filter fun channel => channel.name = name).length

/-- Two reconciliations in succession for the same member and email against
the same store, the second on the guild the first left. -/
def reconcileTwice (client : Client) (store : Store) (out1 out2 : Outcomes) (member : Member)
    (customerEmail : String) (g : Guild) : Completion × Guild :=
  checkPendingOrdersAndCreateTicket client store out2 member customerEmail
    (checkPendingOrdersAndCreateTicket client store out1 member customerEmail g).2

/-- A sample process: bot user `bot`, dates rendered as stored. -/
def sampleClient : Client := { userId := "bot", localeString := id }

/-- A sample member. -/
def sampleMember : Member := { id := "m", userTag := "m#1" }

/-- A sample pending order of `a@b.c` for a given product id. -/
def sampleOrder (productId : Nat) : Order :=
  { id := 7, customer_email := "a@b.c", product_id := productId, status := "pending",
    created_at := "2024-01-01" }

/-- A sample store: one pending order of `a@b.c` for the given product id, and
the single product 1. -/
def sampleStore (productId : Nat) : Store :=
  { orders := [sampleOrder productId], products := [{ id := 1, name := "eSIM" }] }

/-- A sample guild without channels. -/
def emptyGuild : Guild := { id := "g", channels := [], sent := [], errors := [], logs := [] }

/-- Every collaborator call of a reconciliation resolves. -/
def allResolve : Outcomes :=
  { ordersQuery := true, productsQuery := true, channelCreate := true, channelSend := true }

/-! ## Helper lemmas -/

theorem JsMap.get_set_same (m : JsMap) (k v : String) : (JsMap.set m k v).get k = some v := by
  induction m with
  | nil => simp [JsMap.set, JsMap.get]
  | cons p rest ih =>
    obtain ⟨k', v'⟩ := p
    by_cases h : k' = k
    · simp [JsMap.set, JsMap.get, h]
    · simp [JsMap.set, JsMap.get, h, ih]

theorem JsMap.get_set_other (m : JsMap) (k v j : String) (hj : j ≠ k) :
    (JsMap.set m k v).get j = m.get j := by
  induction m with
  | nil => simp [JsMap.set, JsMap.get, Ne.symm hj]
  | cons p rest ih =>
    obtain ⟨k', v'⟩ := p
    by_cases h : k' = k
    · subst h
      simp [JsMap.set, JsMap.get, Ne.symm hj]
    · by_cases h2 : k' = j
      · subst h2
        simp [JsMap.set, JsMap.get, hj]
      · simp [JsMap.set, JsMap.get, h, h2, ih]

/-! ## QR payload -/

/-- C1: for every activation code `c` and SM-DP+ address `a`, whatever the
state and the outcome of the encoder call, `generateQRCode` issues exactly one
encoder call and the text it hands over is `"1$esim$" ++ a ++ "$" ++ c`, a
function of `(c, a)` alone; for `ABC123` and `rsp.example.com` it is
`1$esim$rsp.example.com$ABC123`. -/
theorem generateQRCode_payload (outcome : Nat → Bool) (c a : String) (s : HState) :
    (generateQRCode outcome c a s).2.calls
        = s.calls ++ [(Call.toCanvas 300 300 ("1$esim$" ++ a ++ "$" ++ c) qrOptions,
            outcome s.calls.length)]
      ∧ encoderTexts (generateQRCode outcome c a s).2
        = encoderTexts s ++ ["1$esim$" ++ a ++ "$" ++ c]
      ∧ encoderTexts (generateQRCode outcome "ABC123" "rsp.example.com" (freshState none)).2
        = ["1$esim$rsp.example.com$ABC123"] := by
  have key : ∀ (c a : String) (s : HState), encoderTexts (generateQRCode outcome c a s).2
      = encoderTexts s ++ ["1$esim$" ++ a ++ "$" ++ c] := by
    intro c a s
    unfold generateQRCode perform qrData encoderTexts
    cases outcome s.calls.length <;> simp [List.filterMap_append]
  refine ⟨?_, key c a s, ?_⟩
  · unfold generateQRCode perform qrData
    cases outcome s.calls.length <;> simp
  · rw [key]
    decide

/-- C9, as stated, fails: an activation code that contains a dollar sign
yields five pieces, not four. -/
theorem qrData_split_counterexample :
    jsSplit (qrData "K2$X" "rsp.example.com") '$' = ["1", "esim", "rsp.example.com", "K2", "X"]
      ∧ jsSplit (qrData "K2$X" "rsp.example.com") '$' ≠ ["1", "esim", "rsp.example.com", "K2$X"] := by
  decide

/-- C9, amended: when neither the SM-DP+ address `a` nor the activation code
`c` contains a dollar sign, splitting the payload on `$` yields exactly
`["1", "esim", a, c]`. -/
theorem qrData_split (c a : String) (ha : '$' ∉ a.data) (hc : '$' ∉ c.data) :
    jsSplit (qrData c a) '$' = ["1", "esim", a, c] := by
  have hsep : (fun x : Char => x == '$') '$' = true := by simp
  have hA : ∀ x ∈ a.data, ¬ ((fun x : Char => x == '$') x = true) := by
    intro x hx h
    simp at h
    exact ha (h ▸ hx)
  have hC : ∀ x ∈ c.data, ¬ ((fun x : Char => x == '$') x = true) := by
    intro x hx h
    simp at h
    exact hc (h ▸ hx)
  have h1 : ∀ x ∈ ['1'], ¬ ((fun x : Char => x == '$') x = true) := by
    intro x hx; simp at hx; subst hx; decide
  have h2 : ∀ x ∈ ['e', 's', 'i', 'm'], ¬ ((fun x : Char => x == '$') x = true) := by
    intro x hx; simp at hx; rcases hx with rfl | rfl | rfl | rfl <;> decide
  have hdata : (qrData c a).data
      = ['1'] ++ '$' :: (['e', 's', 'i', 'm'] ++ '$' :: (a.data ++ '$' :: c.data)) := by
    simp [qrData, String.data_append]
  unfold jsSplit
  rw [hdata, List.splitOn, List.splitOnP_first _ _ h1 _ hsep, List.splitOnP_first _ _ h2 _ hsep,
    List.splitOnP_first _ _ hA _ hsep, List.splitOnP_eq_single _ _ hC]
  rfl

/-- Witness of `qrData_split` at the spec's example. -/
theorem qrData_split_witness :
    jsSplit (qrData "ABC123" "rsp.example.com") '$' = ["1", "esim", "rsp.example.com", "ABC123"] :=
  qrData_split "ABC123" "rsp.example.com" (by decide) (by decide)

/-! ## The interaction handler -/

theorem interactionCatch_activationCodes (outcome : Nat → Bool) (s : HState) :
    (interactionCatch outcome s).activationCodes = s.activationCodes := by
  simp only [interactionCatch, perform, logError]
  split_ifs <;> cases outcome s.calls.length <;> rfl

/-- C10: for every `esim_details` submission by user `i.userId` with
activation code `c`, whatever the outcomes of the encoder and reply calls,
after handling `client.activationCodes` is the previous map (empty when it did
not exist) with `i.userId` set to `c`: it maps the user to `c` and every other
user id to what it was mapped to before. -/
theorem esimDetails_stores_code (outcome : Nat → Bool) (i : Interaction) (c a : String)
    (s : HState) (hk : i.kind = InteractionKind.modalSubmit "esim_details" c a) :
    ∃ m : JsMap, (interactionCreate outcome i s).activationCodes = some m
      ∧ m = JsMap.set (s.activationCodes.getD []) i.userId c
      ∧ m.get i.userId = some c
      ∧ ∀ v, v ≠ i.userId → m.get v = JsMap.get (s.activationCodes.getD []) v := by
  refine ⟨JsMap.set (s.activationCodes.getD []) i.userId c, ?_, rfl,
    JsMap.get_set_same _ _ _, fun v hv => JsMap.get_set_other _ _ _ _ hv⟩
  have htry : (interactionTry outcome i s).2.activationCodes
      = some (JsMap.set (s.activationCodes.getD []) i.userId c) := by
    simp only [interactionTry, hk, if_true, generateQRCode, perform, qrCatch, await, logError]
    cases outcome s.calls.length
    · rfl
    · simp only [List.length_append, List.length_singleton]
      cases outcome (s.calls.length + 1) <;> rfl
  unfold interactionCreate
  split <;> rename_i h <;> rw [h] at htry
  · exact htry
  · rw [interactionCatch_activationCodes]; exact htry

/-- Witness of `esimDetails_stores_code`: a resubmission by user `u1` while
the encoder rejects overwrites the entry of `u1` and keeps the entry of `u2`. -/
theorem esimDetails_stores_code_witness :
    ∃ m : JsMap,
      (interactionCreate allFail
          { kind := .modalSubmit "esim_details" "NEW" "rsp.example.com", channelId := "c",
            member := none, userId := "u1" }
          (freshState (some [("u1", "OLD"), ("u2", "KEEP")]))).activationCodes = some m
      ∧ m = JsMap.set ((freshState (some [("u1", "OLD"), ("u2", "KEEP")])).activationCodes.getD [])
            "u1" "NEW"
      ∧ m.get "u1" = some "NEW"
      ∧ ∀ v, v ≠ "u1" →
          m.get v = JsMap.get ((freshState (some [("u1", "OLD"), ("u2", "KEEP")])).activationCodes.getD []) v :=
  esimDetails_stores_code allFail
    { kind := .modalSubmit "esim_details" "NEW" "rsp.example.com", channelId := "c",
      member := none, userId := "u1" }
    "NEW" "rsp.example.com" (freshState (some [("u1", "OLD"), ("u2", "KEEP")])) rfl

/-- C2, as stated, fails: for an `esim` command outside the designated
channel whose denial reply the platform rejects, the handler's `catch` sends
the generic error, and that, not the "wrong channel" denial, is the only
response. -/
theorem esim_gate_counterexample :
    responses (interactionCreate (fun n => decide (n ≠ 0))
        { kind := .chatInputCommand "esim", channelId := "42",
          member := some (.guildMember [SF_ROLE_ID]), userId := "u" } (freshState none))
      = [Call.reply "An error occurred while processing your request. Please try again."
          (some 64) []] := by
  decide

/-- C2, amended: for every `esim` command interaction and every outcome of
the platform calls. Outside the designated channel the first call is the
invoker-only "wrong channel" reply, with or without the SF role; in the
channel, without a member or for a guild member without the SF role, it is the
invoker-only "no permission" reply; in the channel for a guild member with the
SF role it is `showModal` of the modal `esim_details` with the two required
short text inputs `activationCode` and `smdpAddress`. When the platform
accepts the first call it is the only call and the only response; when it
rejects it, the only further call is the invoker-only generic error reply,
which is the only response if accepted, and there is none otherwise. When the
member is absent or a guild member, a `showModal` call is issued exactly when
the channel check passes and the member holds the SF role, and a modal is
shown exactly when moreover the platform accepts the call. -/
theorem esim_gate (outcome : Nat → Bool) (i : Interaction) (codes : Option JsMap)
    (hk : i.kind = InteractionKind.chatInputCommand "esim") :
    (i.channelId ≠ ESIM_CHANNEL_ID →
        (interactionCreate outcome i (freshState codes)).calls
            = (Call.reply
                "This command can only be used in the designated eSIM generator channel."
                (some 64) [], outcome 0)
              :: (if outcome 0 = true then []
                  else [(Call.reply
                    "An error occurred while processing your request. Please try again."
                    (some 64) [], outcome 1)])
          ∧ responses (interactionCreate outcome i (freshState codes))
            = (if outcome 0 = true then
                [Call.reply
                  "This command can only be used in the designated eSIM generator channel."
                  (some 64) []]
               else if outcome 1 = true then
                [Call.reply
                  "An error occurred while processing your request. Please try again."
                  (some 64) []]
               else []))
      ∧ (i.channelId = ESIM_CHANNEL_ID →
          (i.member = none
            ∨ ∃ roles, i.member = some (InteractionMember.guildMember roles)
                ∧ SF_ROLE_ID ∉ roles) →
          (interactionCreate outcome i (freshState codes)).calls
              = (Call.reply "You do not have permission to use this command." (some 64) [],
                  outcome 0)
                :: (if outcome 0 = true then []
                    else [(Call.reply
                      "An error occurred while processing your request. Please try again."
                      (some 64) [], outcome 1)])
            ∧ responses (interactionCreate outcome i (freshState codes))
              = (if outcome 0 = true then
                  [Call.reply "You do not have permission to use this command." (some 64) []]
                 else if outcome 1 = true then
                  [Call.reply
                    "An error occurred while processing your request. Please try again."
                    (some 64) []]
                 else []))
      ∧ (i.channelId = ESIM_CHANNEL_ID →
          (∃ roles, i.member = some (InteractionMember.guildMember roles)
              ∧ SF_ROLE_ID ∈ roles) →
          (interactionCreate outcome i (freshState codes)).calls
              = (Call.showModal
                  { customId := "esim_details", title := "Enter eSIM Details",
                    components :=
                      [ { customId := "activationCode",
                          label := "Enter the eSIM activation code", style := "Short",
                          placeholder := "Enter the activation code here", required := true },
                        { customId := "smdpAddress", label := "Enter the SM-DP+ address",
                          style := "Short", placeholder := "Enter the SM-DP+ address here",
                          required := true } ] },
                  outcome 0)
                :: (if outcome 0 = true then []
                    else [(Call.reply
                      "An error occurred while processing your request. Please try again."
                      (some 64) [], outcome 1)]))
      ∧ ((i.member = none ∨ ∃ roles, i.member = some (InteractionMember.guildMember roles)) →
          ((∃ modal ok, (Call.showModal modal, ok)
                ∈ (interactionCreate outcome i (freshState codes)).calls)
            ↔ (i.channelId = ESIM_CHANNEL_ID
                ∧ ∃ roles, i.member = some (InteractionMember.guildMember roles)
                    ∧ SF_ROLE_ID ∈ roles))
          ∧ ((∃ modal, Call.showModal modal
                ∈ responses (interactionCreate outcome i (freshState codes)))
            ↔ (i.channelId = ESIM_CHANNEL_ID
                ∧ (∃ roles, i.member = some (InteractionMember.guildMember roles)
                    ∧ SF_ROLE_ID ∈ roles)
                ∧ outcome 0 = true))) := by
  by_cases hch : i.channelId = ESIM_CHANNEL_ID
  · cases hm : i.member with
    | none =>
      cases h0 : outcome 0 <;> cases h1 : outcome 1 <;>
        simp [interactionCreate, interactionTry, hk, hch, hm, hasSfRole, perform, await,
          freshState, interactionCatch, logError, h0, h1, Call.isReply, noPermissionReply,
          genericErrorText, responses, isResponse, List.filter]
    | some m =>
      cases m with
      | guildMember roles =>
        by_cases hr : SF_ROLE_ID ∈ roles
        · cases h0 : outcome 0 <;> cases h1 : outcome 1 <;>
            simp [interactionCreate, interactionTry, hk, hch, hm, hasSfRole, hr, perform, await,
              freshState, interactionCatch, logError, h0, h1, Call.isReply, esimModal,
              genericErrorText, responses, isResponse, List.filter]
        · cases h0 : outcome 0 <;> cases h1 : outcome 1 <;>
            simp [interactionCreate, interactionTry, hk, hch, hm, hasSfRole, hr, perform, await,
              freshState, interactionCatch, logError, h0, h1, Call.isReply, noPermissionReply,
              genericErrorText, responses, isResponse, List.filter]
      | apiMember roles =>
        cases h0 : outcome 0 <;>
          simp [interactionCreate, interactionTry, hk, hch, hm, hasSfRole, perform,
            freshState, interactionCatch, logError, h0, Call.isReply,
            genericErrorText, responses, isResponse, List.filter]
  · cases h0 : outcome 0 <;> cases h1 : outcome 1 <;>
      simp [interactionCreate, interactionTry, hk, hch, perform, await,
        freshState, interactionCatch, logError, h0, h1, Call.isReply, wrongChannelReply,
        genericErrorText, responses, isResponse, List.filter]

/-- Witness of `esim_gate`: with the platform accepting every call, an `esim`
command outside the designated channel from a holder of the SF role gets the
"wrong channel" reply, one in the channel without a member gets the "no
permission" reply, and one in the channel from a holder of the role is shown
a modal. -/
theorem esim_gate_witness :
    responses (interactionCreate allOk
        { kind := .chatInputCommand "esim", channelId := "42",
          member := some (.guildMember [SF_ROLE_ID]), userId := "u" } (freshState none))
      = (if allOk 0 = true then
          [Call.reply "This command can only be used in the designated eSIM generator channel."
            (some 64) []]
         else if allOk 1 = true then
          [Call.reply "An error occurred while processing your request. Please try again."
            (some 64) []]
         else [])
    ∧ responses (interactionCreate allOk
        { kind := .chatInputCommand "esim", channelId := ESIM_CHANNEL_ID, member := none,
          userId := "u" } (freshState none))
      = (if allOk 0 = true then
          [Call.reply "You do not have permission to use this command." (some 64) []]
         else if allOk 1 = true then
          [Call.reply "An error occurred while processing your request. Please try again."
            (some 64) []]
         else [])
    ∧ (∃ modal, Call.showModal modal ∈ responses (interactionCreate allOk
        { kind := .chatInputCommand "esim", channelId := ESIM_CHANNEL_ID,
          member := some (.guildMember [SF_ROLE_ID]), userId := "u" } (freshState none))) :=
  ⟨((esim_gate allOk _ none rfl).1 (by decide)).2,
   ((esim_gate allOk _ none rfl).2.1 rfl (Or.inl rfl)).2,
   ((esim_gate allOk _ none rfl).2.2.2 (Or.inr ⟨[SF_ROLE_ID], rfl⟩)).2.mpr
     ⟨rfl, ⟨[SF_ROLE_ID], rfl, by simp⟩, rfl⟩⟩

/-- C5, as stated, fails: an `esim` command whose platform calls all reject
ends with no response. -/
theorem responses_counterexample :
    responses (interactionCreate allFail
        { kind := .chatInputCommand "esim", channelId := "42", member := none,
          userId := "u" } (freshState none)) = [] := by
  decide

/-- C5, amended: for every interaction and every outcome of the collaborator
calls, at most one response (resolved `reply` or `showModal`) is sent, never
two. For an `esim` command or an `esim_details` submission exactly one
response is sent, unless every platform call the handler issued was rejected,
the last of them being the invoker-only generic error reply of the outer
`catch`; only then is none sent. -/
theorem at_most_one_response (outcome : Nat → Bool) (i : Interaction) (codes : Option JsMap) :
    (responses (interactionCreate outcome i (freshState codes))).length ≤ 1
      ∧ ((i.kind = InteractionKind.chatInputCommand "esim"
            ∨ ∃ c a, i.kind = InteractionKind.modalSubmit "esim_details" c a) →
          (responses (interactionCreate outcome i (freshState codes))).length = 1
            ∨ (responses (interactionCreate outcome i (freshState codes)) = []
                ∧ (∀ c ∈ (interactionCreate outcome i (freshState codes)).calls,
                    isPlatformCall c.1 = true → c.2 = false)
                ∧ (interactionCreate outcome i (freshState codes)).calls.getLast?
                    = some (Call.reply
                        "An error occurred while processing your request. Please try again."
                        (some 64) [], false))) := by
  cases hkind : i.kind with
  | chatInputCommand name =>
    by_cases hn : name = "esim"
    · subst hn
      by_cases hch : i.channelId = ESIM_CHANNEL_ID
      · cases hr : hasSfRole i with
        | error e =>
          cases h0 : outcome 0 <;>
            simp [interactionCreate, interactionTry, hkind, hch, hr, perform, freshState,
              interactionCatch, logError, h0, Call.isReply, genericErrorText,
              responses, isResponse, isPlatformCall, List.filter]
        | ok b =>
          cases b <;> cases h0 : outcome 0 <;> cases h1 : outcome 1 <;>
            simp [interactionCreate, interactionTry, hkind, hch, hr, perform, await, freshState,
              interactionCatch, logError, h0, h1, Call.isReply, noPermissionReply,
              genericErrorText, responses, isResponse, isPlatformCall, List.filter]
      · cases h0 : outcome 0 <;> cases h1 : outcome 1 <;>
          simp [interactionCreate, interactionTry, hkind, hch, perform, await, freshState,
            interactionCatch, logError, h0, h1, Call.isReply, wrongChannelReply,
            genericErrorText, responses, isResponse, isPlatformCall, List.filter]
    · simp [interactionCreate, interactionTry, hkind, hn, freshState, responses]
  | modalSubmit id c a =>
    by_cases hid : id = "esim_details"
    · subst hid
      cases h0 : outcome 0 <;> cases h1 : outcome 1 <;> cases h2 : outcome 2 <;>
        cases h3 : outcome 3 <;>
        simp [interactionCreate, interactionTry, hkind, generateQRCode, qrCatch, perform, await,
          freshState, interactionCatch, logError, h0, h1, h2, h3, Call.isReply, qrFailedReply,
          genericErrorText, responses, isResponse, isPlatformCall, List.filter]
    · simp [interactionCreate, interactionTry, hkind, hid, freshState, responses]
  | other => simp [interactionCreate, interactionTry, hkind, freshState, responses]

/-- Witness of `at_most_one_response`: an `esim` command outside the
designated channel whose denial the platform rejects and whose generic error
reply it accepts gets exactly one response. -/
theorem at_most_one_response_witness :
    (responses (interactionCreate (fun n => decide (n ≠ 0))
        { kind := .chatInputCommand "esim", channelId := "42", member := none,
          userId := "u" } (freshState none))).length = 1 :=
  ((at_most_one_response (fun n => decide (n ≠ 0)) _ none).2 (Or.inl rfl)).resolve_right
    (fun h => absurd h.1 (by decide))

/-- For a raw API member the role test of bot.js:190 throws before any call:
an `esim` command in the designated channel then gets the generic error reply
of the outer `catch` as its only call, neither a denial nor the modal. -/
theorem esim_api_member_generic_error (outcome : Nat → Bool) (i : Interaction)
    (codes : Option JsMap) (roles : List String)
    (hk : i.kind = InteractionKind.chatInputCommand "esim")
    (hch : i.channelId = ESIM_CHANNEL_ID)
    (hm : i.member = some (InteractionMember.apiMember roles)) :
    (interactionCreate outcome i (freshState codes)).calls
      = [(Call.reply "An error occurred while processing your request. Please try again."
          (some 64) [], outcome 0)] := by
  cases h0 : outcome 0 <;>
    simp [interactionCreate, interactionTry, hk, hch, hm, hasSfRole, perform,
      freshState, interactionCatch, logError, h0, Call.isReply, genericErrorText]

/-- The handler has no branch for the registered `verify` command
(bot.js:150-162 registers it, bot.js:180 tests for `esim` only): whatever the
outcomes, a `verify` command issues no call and so gets no response. -/
theorem verify_command_no_call (outcome : Nat → Bool) (i : Interaction) (s : HState)
    (hk : i.kind = InteractionKind.chatInputCommand "verify") :
    interactionCreate outcome i s = s := by
  simp [interactionCreate, interactionTry, hk]

/-! ## The message handler -/

/-- C6: for every message. If the author is a bot no platform call is issued,
whatever the channel name and the outcomes. Otherwise, in a channel named
exactly `verify` (resp. `welcome`) with the platform calls resolving, the run
consists of one resolved `delete` followed by one resolved `send` of the
instruction text, flagged 64. In a channel with any other name (or none) no
platform call is issued. -/
theorem messageCreate_scoping (outcome : Nat → Bool) (message : Message) :
    (message.authorBot = true → (messageCreate outcome message freshMState).calls = [])
      ∧ (message.authorBot = false → message.channelName = some "verify" →
          (∀ n, outcome n = true) →
          (messageCreate outcome message freshMState).calls
              = [(MsgCall.delete, true),
                 (MsgCall.send (verifyInstruction message) (some 64), true)]
            ∧ deletes (messageCreate outcome message freshMState) = 1
            ∧ (sends (messageCreate outcome message freshMState)).length = 1)
      ∧ (message.authorBot = false → message.channelName = some "welcome" →
          (∀ n, outcome n = true) →
          (messageCreate outcome message freshMState).calls
              = [(MsgCall.delete, true),
                 (MsgCall.send (welcomeInstruction message) (some 64), true)]
            ∧ deletes (messageCreate outcome message freshMState) = 1
            ∧ (sends (messageCreate outcome message freshMState)).length = 1)
      ∧ (message.channelName ≠ some "verify" → message.channelName ≠ some "welcome" →
          (messageCreate outcome message freshMState).calls = []) := by
  refine ⟨?_, ?_, ?_, ?_⟩
  · intro hb
    simp [messageCreate, hb, freshMState]
  · intro hb hv hok
    simp [messageCreate, hb, hv, deleteThenSend, mperform, freshMState, hok, deletes, sends,
      List.filter]
  · intro hb hw hok
    simp [messageCreate, hb, hw, deleteThenSend, mperform, freshMState, hok, deletes, sends,
      List.filter]
  · intro hv hw
    cases hb : message.authorBot <;> simp [messageCreate, hb, hv, hw, freshMState]

/-- Witness of `messageCreate_scoping`: a message by a person in `verify`
is deleted and answered once; the same message in `general` causes no call;
a message by a bot in `verify` causes no call. -/
theorem messageCreate_scoping_witness :
    (messageCreate allOk
        { authorBot := false, author := "7", channelName := some "verify", guildChannels := [] }
        freshMState).calls
      = [(MsgCall.delete, true),
         (MsgCall.send
           "Welcome to SF <@7>, please use the /verify command with your unique code to verify your account."
           (some 64), true)]
    ∧ (messageCreate allOk
        { authorBot := false, author := "7", channelName := some "general", guildChannels := [] }
        freshMState).calls = []
    ∧ (messageCreate allOk
        { authorBot := true, author := "7", channelName := some "verify", guildChannels := [] }
        freshMState).calls = [] :=
  ⟨((messageCreate_scoping allOk
        { authorBot := false, author := "7", channelName := some "verify", guildChannels := [] }).2.1
      rfl rfl (fun _ => rfl)).1,
   (messageCreate_scoping allOk _).2.2.2 (by decide) (by decide),
   (messageCreate_scoping allOk _).1 rfl⟩

/-! ## Ticket reconciliation -/

theorem find_none_iff_channelCount (g : Guild) (name : String) :
    g.channels.find? (fun channel => channel.name = name) = none ↔ channelCount g name = 0 := by
  simp [channelCount, List.find?_eq_none, List.filter_eq_nil_iff]

/-- The effect of one reconciliation on the guild, for every store and every
outcome: either channels and sent messages are untouched, or the ticket
channel of the first pending order, which had no channel of that name, is
added, and then either no message is sent or the ticket message of a resolved
product is sent to it. -/
theorem reconcile_cases (client : Client) (store : Store) (out : Outcomes) (member : Member)
    (customerEmail : String) (g : Guild) :
    ((checkPendingOrdersAndCreateTicket client store out member customerEmail g).2.channels
          = g.channels
        ∧ (checkPendingOrdersAndCreateTicket client store out member customerEmail g).2.sent
          = g.sent)
      ∨ ∃ order rest product ps,
          selectPendingOrders store customerEmail = order :: rest
          ∧ selectProducts store order.product_id = product :: ps
          ∧ channelCount g (ticketChannelName order) = 0
          ∧ out.ordersQuery = true ∧ out.productsQuery = true ∧ out.channelCreate = true
          ∧ (checkPendingOrdersAndCreateTicket client store out member customerEmail g).2.channels
              = g.channels ++ [ticketChannel client g.id member order]
          ∧ ((out.channelSend = false
                ∧ (checkPendingOrdersAndCreateTicket client store out member customerEmail g).2.sent
                  = g.sent)
              ∨ (out.channelSend = true
                ∧ (checkPendingOrdersAndCreateTicket client store out member customerEmail g).2.sent
                  = g.sent ++ [(ticketChannelName order,
                      ticketMessage client member order product)])) := by
  cases hq : out.ordersQuery
  · left
    simp [checkPendingOrdersAndCreateTicket, checkTry, hq]
  · cases ho : selectPendingOrders store customerEmail with
    | nil =>
      left
      simp [checkPendingOrdersAndCreateTicket, checkTry, hq, ho]
    | cons order rest =>
      cases hf : g.channels.find? (fun channel => channel.name = ticketChannelName order) with
      | some ch =>
        left
        simp [checkPendingOrdersAndCreateTicket, checkTry, hq, ho, hf]
      | none =>
        have hcount := (find_none_iff_channelCount g _).mp hf
        cases hpq : out.productsQuery
        · left
          simp [checkPendingOrdersAndCreateTicket, checkTry, hq, ho, hf, hpq]
        · cases hp : selectProducts store order.product_id with
          | nil =>
            left
            simp [checkPendingOrdersAndCreateTicket, checkTry, hq, ho, hf, hpq, hp]
          | cons product ps =>
            cases hc : out.channelCreate
            · left
              simp [checkPendingOrdersAndCreateTicket, checkTry, hq, ho, hf, hpq, hp, hc]
            · right
              refine ⟨order, rest, product, ps, rfl, hp, hcount, rfl, rfl, rfl, ?_, ?_⟩
              · cases hs : out.channelSend <;>
                  simp [checkPendingOrdersAndCreateTicket, checkTry, hq, ho, hf, hpq, hp, hc, hs]
              · cases hs : out.channelSend <;>
                  simp [checkPendingOrdersAndCreateTicket, checkTry, hq, ho, hf, hpq, hp, hc, hs]

theorem channelCount_append (g : Guild) (ch : Channel) (name : String) (g1 : Guild)
    (h : g1.channels = g.channels ++ [ch]) :
    channelCount g1 name = channelCount g name + (if ch.name = name then 1 else 0) := by
  unfold channelCount
  rw [h, List.filter_append]
  by_cases hn : ch.name = name <;> simp [List.filter, hn]

theorem channelCount_congr (g g1 : Guild) (name : String) (h : g1.channels = g.channels) :
    channelCount g1 name = channelCount g name := by
  unfold channelCount
  rw [h]

/-- C7: for every member, email, store, guild and every outcome of the orders
query, the products query, the channel creation and the message send,
`checkPendingOrdersAndCreateTicket` completes normally: nothing it throws
reaches the caller. -/
theorem reconcile_completes (client : Client) (store : Store) (out : Outcomes) (member : Member)
    (customerEmail : String) (g : Guild) :
    (checkPendingOrdersAndCreateTicket client store out member customerEmail g).1
      = Completion.normal := by
  unfold checkPendingOrdersAndCreateTicket
  split <;> rfl

/-- C4: if the first pending order for the email references a product id for
which the products lookup returns no row, then for every outcome of the
collaborator calls the reconciliation creates no channel, sends no message and
completes normally. -/
theorem dangling_product_no_effect (client : Client) (store : Store) (out : Outcomes)
    (member : Member) (customerEmail : String) (g : Guild) (order : Order) (rest : List Order)
    (ho : selectPendingOrders store customerEmail = order :: rest)
    (hp : selectProducts store order.product_id = []) :
    (checkPendingOrdersAndCreateTicket client store out member customerEmail g).1
        = Completion.normal
      ∧ (checkPendingOrdersAndCreateTicket client store out member customerEmail g).2.channels
        = g.channels
      ∧ (checkPendingOrdersAndCreateTicket client store out member customerEmail g).2.sent
        = g.sent := by
  refine ⟨?_, ?_⟩
  · unfold checkPendingOrdersAndCreateTicket
    split <;> rfl
  · rcases reconcile_cases client store out member customerEmail g with h | h
    · exact h
    · obtain ⟨order2, rest2, product, ps, ho2, hp2, -⟩ := h
      rw [ho] at ho2
      obtain ⟨rfl, -⟩ := List.cons.inj ho2
      rw [hp] at hp2
      exact absurd hp2 (List.cons_ne_nil _ _).symm

/-- Witness of `dangling_product_no_effect`: order 7 references product 99,
which the store does not hold. -/
theorem dangling_product_no_effect_witness :
    (checkPendingOrdersAndCreateTicket sampleClient (sampleStore 99) allResolve sampleMember
        "a@b.c" emptyGuild).1 = Completion.normal
      ∧ (checkPendingOrdersAndCreateTicket sampleClient (sampleStore 99) allResolve sampleMember
        "a@b.c" emptyGuild).2.channels = emptyGuild.channels
      ∧ (checkPendingOrdersAndCreateTicket sampleClient (sampleStore 99) allResolve sampleMember
        "a@b.c" emptyGuild).2.sent = emptyGuild.sent :=
  dangling_product_no_effect sampleClient (sampleStore 99) allResolve sampleMember "a@b.c"
    emptyGuild (sampleOrder 99) [] (by decide) (by decide)

/-- C8: for every member, email, store, guild and outcomes, one call leaves
the channel list and the sent messages untouched or adds exactly one channel,
the ticket channel of the first order returned by the pending-orders query,
and sends at most one message, to that channel. When the query returns
`order :: rest`, no channel is named `ticket-<order.id>`, the product resolves
and every call resolves, exactly one channel of that name is created (view
denied to the guild id, view/send/read-history allowed to the member and to
the bot) and exactly one message is sent to it. When the query returns no
order, or a channel of that name exists, nothing is created or sent. -/
theorem reconcile_effects (client : Client) (store : Store) (out : Outcomes) (member : Member)
    (customerEmail : String) (g : Guild) :
    (((checkPendingOrdersAndCreateTicket client store out member customerEmail g).2.channels
          = g.channels
        ∧ (checkPendingOrdersAndCreateTicket client store out member customerEmail g).2.sent
          = g.sent)
      ∨ ∃ order rest, selectPendingOrders store customerEmail = order :: rest
          ∧ (checkPendingOrdersAndCreateTicket client store out member customerEmail g).2.channels
              = g.channels ++ [ticketChannel client g.id member order]
          ∧ ((checkPendingOrdersAndCreateTicket client store out member customerEmail g).2.sent
                = g.sent
              ∨ ∃ message,
                (checkPendingOrdersAndCreateTicket client store out member customerEmail g).2.sent
                  = g.sent ++ [(ticketChannelName order, message)]))
    ∧ (∀ order rest product ps,
        selectPendingOrders store customerEmail = order :: rest →
        channelCount g ("ticket-" ++ toString order.id) = 0 →
        selectProducts store order.product_id = product :: ps →
        out = allResolve →
        (checkPendingOrdersAndCreateTicket client store out member customerEmail g).2.channels
            = g.channels ++
              [{ name := "ticket-" ++ toString order.id, type := "GuildText",
                 permissionOverwrites :=
                  [ { id := g.id, allow := [], deny := [Permission.ViewChannel] },
                    { id := member.id,
                      allow := [Permission.ViewChannel, Permission.SendMessages,
                        Permission.ReadMessageHistory], deny := [] },
                    { id := client.userId,
                      allow := [Permission.ViewChannel, Permission.SendMessages,
                        Permission.ReadMessageHistory], deny := [] } ] }]
          ∧ (checkPendingOrdersAndCreateTicket client store out member customerEmail g).2.sent
            = g.sent ++ [("ticket-" ++ toString order.id,
                ticketMessage client member order product)]
          ∧ channelCount
              (checkPendingOrdersAndCreateTicket client store out member customerEmail g).2
              ("ticket-" ++ toString order.id) = 1)
    ∧ (selectPendingOrders store customerEmail = [] →
        (checkPendingOrdersAndCreateTicket client store out member customerEmail g).2.channels
            = g.channels
          ∧ (checkPendingOrdersAndCreateTicket client store out member customerEmail g).2.sent
            = g.sent)
    ∧ (∀ order rest,
        selectPendingOrders store customerEmail = order :: rest →
        0 < channelCount g ("ticket-" ++ toString order.id) →
        (checkPendingOrdersAndCreateTicket client store out member customerEmail g).2.channels
            = g.channels
          ∧ (checkPendingOrdersAndCreateTicket client store out member customerEmail g).2.sent
            = g.sent) := by
  have hcases := reconcile_cases client store out member customerEmail g
  refine ⟨?_, ?_, ?_, ?_⟩
  · rcases hcases with h | ⟨order, rest, product, ps, ho, -, -, -, -, -, hch, hs⟩
    · exact Or.inl h
    · refine Or.inr ⟨order, rest, ho, hch, ?_⟩
      rcases hs with ⟨-, h⟩ | ⟨-, h⟩
      · exact Or.inl h
      · exact Or.inr ⟨_, h⟩
  · intro order rest product ps ho hcount hp hout
    subst hout
    have hf := (find_none_iff_channelCount g _).mpr hcount
    have hf2 : g.channels.find? (fun channel => channel.name = ticketChannelName order) = none := hf
    have hch : (checkPendingOrdersAndCreateTicket client store allResolve member customerEmail
        g).2.channels = g.channels ++ [ticketChannel client g.id member order] := by
      simp [checkPendingOrdersAndCreateTicket, checkTry, allResolve, ho, hf2, hp]
    refine ⟨hch, ?_, ?_⟩
    · simp [checkPendingOrdersAndCreateTicket, checkTry, allResolve, ho, hf, hp,
        ticketChannelName]
    · rw [channelCount_append g _ _ _ hch, hcount]
      simp [ticketChannel, ticketChannelName]
  · intro ho
    rcases hcases with h | ⟨order, rest, product, ps, ho2, -⟩
    · exact h
    · rw [ho] at ho2
      exact absurd ho2 (List.cons_ne_nil _ _).symm
  · intro order rest ho hpos
    rcases hcases with h | ⟨order2, rest2, product, ps, ho2, -, hcount, -⟩
    · exact h
    · rw [ho] at ho2
      obtain ⟨rfl, -⟩ := List.cons.inj ho2
      have : channelCount g (ticketChannelName order) = channelCount g ("ticket-" ++ toString order.id) := rfl
      omega

/-- Witness of `reconcile_effects`: order 7 for the existing product 1 in a
guild without channels yields the single channel `ticket-7` and one message
to it. -/
theorem reconcile_effects_witness :
    (checkPendingOrdersAndCreateTicket sampleClient (sampleStore 1) allResolve sampleMember
        "a@b.c" emptyGuild).2.channels
      = emptyGuild.channels ++
          [{ name := "ticket-" ++ toString (sampleOrder 1).id, type := "GuildText",
             permissionOverwrites :=
              [ { id := emptyGuild.id, allow := [], deny := [Permission.ViewChannel] },
                { id := sampleMember.id,
                  allow := [Permission.ViewChannel, Permission.SendMessages,
                    Permission.ReadMessageHistory], deny := [] },
                { id := sampleClient.userId,
                  allow := [Permission.ViewChannel, Permission.SendMessages,
                    Permission.ReadMessageHistory], deny := [] } ] }]
    ∧ (checkPendingOrdersAndCreateTicket sampleClient (sampleStore 1) allResolve sampleMember
        "a@b.c" emptyGuild).2.sent
      = emptyGuild.sent ++ [("ticket-" ++ toString (sampleOrder 1).id,
          ticketMessage sampleClient sampleMember (sampleOrder 1) { id := 1, name := "eSIM" })]
    ∧ channelCount
        (checkPendingOrdersAndCreateTicket sampleClient (sampleStore 1) allResolve sampleMember
          "a@b.c" emptyGuild).2
        ("ticket-" ++ toString (sampleOrder 1).id) = 1 :=
  (reconcile_effects sampleClient (sampleStore 1) allResolve sampleMember "a@b.c"
    emptyGuild).2.1 (sampleOrder 1) [] { id := 1, name := "eSIM" } [] (by decide) (by decide)
    (by decide) rfl

/-- One call creates the ticket channel when the first pending order has no
channel yet, its product resolves and the two queries and the creation
resolve. -/
theorem reconcile_creates (client : Client) (store : Store) (out : Outcomes) (member : Member)
    (customerEmail : String) (g : Guild) (order : Order) (rest : List Order) (product : Product)
    (ps : List Product) (ho : selectPendingOrders store customerEmail = order :: rest)
    (hp : selectProducts store order.product_id = product :: ps)
    (hcount : channelCount g (ticketChannelName order) = 0)
    (hq : out.ordersQuery = true) (hpq : out.productsQuery = true)
    (hc : out.channelCreate = true) :
    (checkPendingOrdersAndCreateTicket client store out member customerEmail g).2.channels
      = g.channels ++ [ticketChannel client g.id member order] := by
  have hf := (find_none_iff_channelCount g _).mpr hcount
  cases hs : out.channelSend <;>
    simp [checkPendingOrdersAndCreateTicket, checkTry, hq, ho, hf, hpq, hp, hc, hs]

/-- The number of channels named after the first pending order after one
call: unchanged, or one when a channel was created (there was none before,
the product resolved and the creating calls resolved). -/
theorem reconcile_count (client : Client) (store : Store) (out : Outcomes) (member : Member)
    (customerEmail : String) (g : Guild) (order : Order) (rest : List Order)
    (ho : selectPendingOrders store customerEmail = order :: rest) :
    (channelCount (checkPendingOrdersAndCreateTicket client store out member customerEmail g).2
          (ticketChannelName order) = channelCount g (ticketChannelName order))
      ∨ (channelCount g (ticketChannelName order) = 0
          ∧ channelCount
              (checkPendingOrdersAndCreateTicket client store out member customerEmail g).2
              (ticketChannelName order) = 1
          ∧ (∃ product ps, selectProducts store order.product_id = product :: ps)
          ∧ out.ordersQuery = true ∧ out.productsQuery = true ∧ out.channelCreate = true) := by
  rcases reconcile_cases client store out member customerEmail g with
    h | ⟨order2, rest2, product, ps, ho2, hp, hcount, hq, hpq, hc, hch, -⟩
  · exact Or.inl (channelCount_congr _ _ _ h.1)
  · rw [ho] at ho2
    obtain ⟨rfl, -⟩ := List.cons.inj ho2
    refine Or.inr ⟨hcount, ?_, ⟨product, ps, hp⟩, hq, hpq, hc⟩
    rw [channelCount_append g _ _ _ hch, hcount]
    simp [ticketChannel]

/-- C3, as stated, fails: when the first pending order references a product
that does not resolve, two reconciliations in succession leave no channel
named `ticket-7`, not exactly one. -/
theorem reconcile_twice_counterexample :
    selectPendingOrders (sampleStore 99) "a@b.c" = [sampleOrder 99]
      ∧ channelCount emptyGuild (ticketChannelName (sampleOrder 99)) = 0
      ∧ channelCount
          (reconcileTwice sampleClient (sampleStore 99) allResolve allResolve sampleMember
            "a@b.c" emptyGuild).2
          (ticketChannelName (sampleOrder 99)) = 0 := by
  decide

/-- C3, amended: when no channel is named `ticket-<id>` of the first pending
order for the email, two reconciliations in succession against the same store
leave at most one channel of that name, never two, whatever the outcomes of
the collaborator calls; they leave exactly one precisely when the product of
the order resolves and, in at least one of the two calls, the orders query,
the products query and the channel creation resolve. More generally, for every
name and guild, if at most one channel has that name before a call, at most
one has it after the call. -/
theorem reconcile_twice (client : Client) (store : Store) (out1 out2 : Outcomes)
    (member : Member) (customerEmail : String) (g : Guild) (order : Order) (rest : List Order)
    (ho : selectPendingOrders store customerEmail = order :: rest)
    (h0 : channelCount g (ticketChannelName order) = 0) :
    channelCount (reconcileTwice client store out1 out2 member customerEmail g).2
        (ticketChannelName order) ≤ 1
      ∧ (channelCount (reconcileTwice client store out1 out2 member customerEmail g).2
            (ticketChannelName order) = 1
          ↔ ((∃ product ps, selectProducts store order.product_id = product :: ps)
              ∧ ((out1.ordersQuery = true ∧ out1.productsQuery = true
                    ∧ out1.channelCreate = true)
                ∨ (out2.ordersQuery = true ∧ out2.productsQuery = true
                    ∧ out2.channelCreate = true))))
      ∧ (∀ (out : Outcomes) (g0 : Guild) (name : String), channelCount g0 name ≤ 1 →
          channelCount (checkPendingOrdersAndCreateTicket client store out member customerEmail
            g0).2 name ≤ 1) := by
  have step1 := reconcile_count client store out1 member customerEmail g order rest ho
  have step2 := reconcile_count client store out2 member customerEmail
    (checkPendingOrdersAndCreateTicket client store out1 member customerEmail g).2 order rest ho
  refine ⟨?_, ?_, ?_⟩
  · unfold reconcileTwice
    rcases step1 with h1 | ⟨-, h1, -⟩ <;> rcases step2 with h2 | ⟨h2a, h2, -⟩ <;> omega
  · unfold reconcileTwice
    constructor
    · intro hone
      rcases step2 with h2 | ⟨-, -, hp, hq, hpq, hc⟩
      · rcases step1 with h1 | ⟨-, -, hp, hq, hpq, hc⟩
        · omega
        · exact ⟨hp, Or.inl ⟨hq, hpq, hc⟩⟩
      · exact ⟨hp, Or.inr ⟨hq, hpq, hc⟩⟩
    · rintro ⟨⟨product, ps, hp⟩, hout⟩
      rcases hout with ⟨hq, hpq, hc⟩ | ⟨hq, hpq, hc⟩
      · have hch := reconcile_creates client store out1 member customerEmail g order rest
          product ps ho hp h0 hq hpq hc
        have hc1 := channelCount_append g _ (ticketChannelName order) _ hch
        simp only [ticketChannel, if_true] at hc1
        rcases step2 with h2 | ⟨h2a, -⟩ <;> omega
      · rcases step1 with h1 | ⟨-, h1, -⟩
        · have hch := reconcile_creates client store out2 member customerEmail
            (checkPendingOrdersAndCreateTicket client store out1 member customerEmail g).2
            order rest product ps ho hp (by omega) hq hpq hc
          have hc2 := channelCount_append _ _ (ticketChannelName order) _ hch
          simp only [ticketChannel, if_true] at hc2
          omega
        · rcases step2 with h2 | ⟨h2a, -⟩ <;> omega
  · intro out g0 name hle
    rcases reconcile_cases client store out member customerEmail g0 with
      h | ⟨order2, rest2, product, ps, -, -, hcount, -, -, -, hch, -⟩
    · rw [channelCount_congr _ _ _ h.1]; exact hle
    · rw [channelCount_append g0 _ name _ hch]
      by_cases hn : (ticketChannel client g0.id member order2).name = name
      · have : ticketChannelName order2 = name := hn
        subst this
        simp [ticketChannel, hcount]
      · simp [hn, hle]

/-- Witness of `reconcile_twice`: order 7 for the existing product 1, every
call resolving, in a guild without channels: two calls leave at most one
channel `ticket-7`. -/
theorem reconcile_twice_witness :
    channelCount
        (reconcileTwice sampleClient (sampleStore 1) allResolve allResolve sampleMember "a@b.c"
          emptyGuild).2
        (ticketChannelName (sampleOrder 1)) ≤ 1
      ∧ channelCount
        (reconcileTwice sampleClient (sampleStore 1) allResolve allResolve sampleMember "a@b.c"
          emptyGuild).2
        (ticketChannelName (sampleOrder 1)) = 1 :=
  ⟨(reconcile_twice sampleClient (sampleStore 1) allResolve allResolve sampleMember "a@b.c"
      emptyGuild (sampleOrder 1) [] (by decide) (by decide)).1,
   (reconcile_twice sampleClient (sampleStore 1) allResolve allResolve sampleMember "a@b.c"
      emptyGuild (sampleOrder 1) [] (by decide) (by decide)).2.1.mpr
      ⟨⟨{ id := 1, name := "eSIM" }, [], by decide⟩, Or.inl ⟨rfl, rfl, rfl⟩⟩⟩

end Shabubot
